import Mathlib

/-!
Verification of the Fast Pay MVP payment-processing pipeline.

This file gives a shallow embedding, in Lean 4, of the payment pipeline of
the Fast Pay MVP repository: the risk engine
(`app/services/risk_engine.py`), the payment orchestrator
(`app/services/payment_orchestrator.py`), the API gateway
(`app/services/api_gateway.py`) and the pipeline coordinator plus
transaction ledger (`main.py`).  Python floats are modelled as exact
rationals (`ℚ`); Python's `round(x, n)` (round-half-to-even) is modelled by
`roundHalfEven`; wall-clock timestamps are modelled by a logical clock that
advances at each timestamped event; the unseeded random draws of the source
(velocity flag, ML anomaly score, settlement success, transaction-id
suffix) and the injected stage exceptions are explicit parameters of the
embedded functions, so that every branch of the source is reachable in the
model.  Database sessions become an explicit `DB` state record that is
threaded through the operations.
-/

/-! ### Rounding

Python's builtin `round` uses round-half-to-even.  `roundHalfEven x` is the
integer nearest to `x`, ties going to the even integer; `round3`/`round2`
model `round(x, 3)` and `round(x, 2)`. -/

/-- Round a rational to the nearest integer, ties to even
(Python's `round`). -/
def roundHalfEven (x : ℚ) : ℤ :=
  if x - ⌊x⌋ < 1/2 then ⌊x⌋
  else if 1/2 < x - ⌊x⌋ then ⌊x⌋ + 1
  else if ⌊x⌋ % 2 = 0 then ⌊x⌋ else ⌊x⌋ + 1

/-- Model of Python `round(x, 3)`. -/
def round3 (x : ℚ) : ℚ := (roundHalfEven (x * 1000) : ℚ) / 1000

/-- Model of Python `round(x, 2)`. -/
def round2 (x : ℚ) : ℚ := (roundHalfEven (x * 100) : ℚ) / 100

/-! ### Data model: requests and risk assessments (`app/models/schemas.py`) -/

/-- `PaymentRequest` from `app/models/schemas.py`. -/
structure PaymentRequest where
  merchant_id : String
  customer_id : String
  amount : ℚ
  currency : String
  payment_method : String
  customer_location : Option String
  deriving Repr, DecidableEq

/-- `RiskAssessment` from `app/models/schemas.py`. -/
structure RiskAssessment where
  payment_id : String
  risk_score : ℚ
  risk_factors : List String
  recommendation : String
  deriving Repr, DecidableEq

/-! ### RiskEngine (`app/services/risk_engine.py`)

The engine's mutable state is its `merchant_profiles` dictionary (modelled
as the list of known merchant ids); its `suspicious_patterns` are the
constants below.  The two hidden random draws of `assess_risk` — the 10%
velocity flag and the `random.uniform(0, 0.3)` ML anomaly score — are
passed in as `velocityFlag` and `ml_anomaly_score`; the current wall-clock
hour is passed in as `current_hour`.  `assess_risk` does not write
`merchant_profiles` (no code in the repository ever does), which the model
reflects by returning only the assessment. -/

def highAmountThreshold : ℚ := 5000

def unusualHours : List ℕ := [0, 1, 2, 3, 4, 5]

/-- The `merchant_profiles` dictionary of a freshly constructed
`RiskEngine` (`RiskEngine.__init__`): empty. -/
def initMerchantProfiles : List String := []

/-- The merchant-history chunk of the risk-factor list: the
`payment_data.merchant_id not in self.merchant_profiles` branch of
`assess_risk`. -/
def merchantHistoryFactors (profiles : List String) (merchant_id : String)
    (velocityFlag : Bool) : List String :=
  if merchant_id ∉ profiles then ["New merchant - limited history"]
  else if velocityFlag then ["High transaction velocity detected"] else []

/-- The merchant-history contribution to the risk score. -/
def merchantHistoryScore (profiles : List String) (merchant_id : String)
    (velocityFlag : Bool) : ℚ :=
  if merchant_id ∉ profiles then 0.1
  else if velocityFlag then 0.4 else 0

/-- The risk factors accumulated by `assess_risk` (the source appends to
`risk_factors` condition by condition; here each condition contributes its
sub-list). -/
def riskFactorsOf (profiles : List String) (payment_data : PaymentRequest)
    (current_hour : ℕ) (velocityFlag : Bool) : List String :=
  (if payment_data.amount > highAmountThreshold then
    ["High amount: " ++ toString payment_data.amount ++ " SZL"] else [])
  ++ (if current_hour ∈ unusualHours then
    ["Unusual transaction time: " ++ toString current_hour ++ ":00"] else [])
  ++ merchantHistoryFactors profiles payment_data.merchant_id velocityFlag
  ++ (match payment_data.customer_location with
      | some loc => if loc ∉ ["Manzini", "Mbabane"] then
          ["Unusual location: " ++ loc] else []
      | none => [])

/-- The additive risk score accumulated by `assess_risk`, before the
`min(risk_score, 1.0)` cap: the same conditions as `riskFactorsOf`, each
contributing its fixed increment, plus the ML anomaly score. -/
def rawRiskScore (profiles : List String) (payment_data : PaymentRequest)
    (current_hour : ℕ) (velocityFlag : Bool) (ml_anomaly_score : ℚ) : ℚ :=
  (if payment_data.amount > highAmountThreshold then 0.3 else 0)
  + (if current_hour ∈ unusualHours then 0.2 else 0)
  + merchantHistoryScore profiles payment_data.merchant_id velocityFlag
  + (match payment_data.customer_location with
      | some loc => if loc ∉ ["Manzini", "Mbabane"] then (0.15 : ℚ) else 0
      | none => 0)
  + ml_anomaly_score

/-- The risk score after the `risk_score = min(risk_score, 1.0)` cap. -/
def clampedRiskScore (profiles : List String) (payment_data : PaymentRequest)
    (current_hour : ℕ) (velocityFlag : Bool) (ml_anomaly_score : ℚ) : ℚ :=
  min (rawRiskScore profiles payment_data current_hour velocityFlag ml_anomaly_score) 1

/-- The recommendation thresholds at the end of `assess_risk`. -/
def recommendationOf (risk_score : ℚ) : String :=
  if risk_score < 0.3 then "APPROVE"
  else if risk_score < 0.7 then "REVIEW"
  else "DECLINE"

/-- `RiskEngine.assess_risk`.  The returned `risk_score` is the capped
score rounded to 3 decimals; the recommendation is computed from the
capped score *before* rounding, exactly as in the source. -/
def assess_risk (profiles : List String) (payment_data : PaymentRequest)
    (payment_id : String) (current_hour : ℕ) (velocityFlag : Bool)
    (ml_anomaly_score : ℚ) : RiskAssessment :=
  let risk_score :=
    clampedRiskScore profiles payment_data current_hour velocityFlag ml_anomaly_score
  { payment_id := payment_id
    risk_score := round3 risk_score
    risk_factors := riskFactorsOf profiles payment_data current_hour velocityFlag
    recommendation := recommendationOf risk_score }

/-! ### Settlement rails and the orchestrator
(`app/models/database.py`, `app/services/payment_orchestrator.py`) -/

/-- `SettlementRail` enum from `app/models/database.py`. -/
inductive SettlementRail where
  | ESWATINI_SWITCH
  | VISA_DIRECT
  deriving Repr, DecidableEq

/-- The string value of the enum member (`.value`). -/
def SettlementRail.value : SettlementRail → String
  | .ESWATINI_SWITCH => "eswatini_switch"
  | .VISA_DIRECT => "visa_direct"

/-- Per-rail static configuration entry of
`PaymentOrchestrator.settlement_configs`. -/
structure RailConfig where
  max_amount : ℚ
  currencies : List String
  fee_rate : ℚ
  deriving Repr, DecidableEq

/-- `PaymentOrchestrator.settlement_configs` from
`PaymentOrchestrator.__init__`. -/
def settlement_configs : SettlementRail → RailConfig
  | .ESWATINI_SWITCH =>
    { max_amount := 10000, currencies := ["SZL"], fee_rate := 0.015 }
  | .VISA_DIRECT =>
    { max_amount := 100000, currencies := ["SZL", "USD", "EUR"], fee_rate := 0.025 }

/-- `PaymentOrchestrator.select_settlement_rail`. -/
def select_settlement_rail (payment_data : PaymentRequest) (risk_score : ℚ) :
    SettlementRail :=
  if risk_score > 0.7 then .VISA_DIRECT
  else if payment_data.currency = "SZL" ∧
      payment_data.amount ≤ (settlement_configs .ESWATINI_SWITCH).max_amount then
    .ESWATINI_SWITCH
  else .VISA_DIRECT

/-- The dictionary returned by `_process_eswatini_switch` /
`_process_visa_direct`: present keys become `some`, absent keys `none`. -/
structure SettlementResult where
  status : String
  transaction_id : Option String
  settlement_time : Option String
  fee : Option ℚ
  net_amount : Option ℚ
  error_code : Option String
  message : Option String
  rail : String
  deriving Repr, DecidableEq

/-- `PaymentOrchestrator._process_eswatini_switch`.  The 95% success draw
is the `success` parameter; the random uuid-derived transaction-id suffix
is `txSuffix`. -/
def processEswatiniSwitch (payment_data : PaymentRequest) (success : Bool)
    (txSuffix : String) : SettlementResult :=
  if success then
    let fee := payment_data.amount * (settlement_configs .ESWATINI_SWITCH).fee_rate
    { status := "completed"
      transaction_id := some ("ESW_" ++ txSuffix)
      settlement_time := some "T+0"
      fee := some (round2 fee)
      net_amount := some (round2 (payment_data.amount - fee))
      error_code := none
      message := none
      rail := "Eswatini National Payment Switch" }
  else
    { status := "failed"
      transaction_id := none
      settlement_time := none
      fee := none
      net_amount := none
      error_code := some "INSUFFICIENT_FUNDS"
      message := some "Transaction declined by issuing bank"
      rail := "Eswatini National Payment Switch" }

/-- `PaymentOrchestrator._process_visa_direct` (92% success draw passed in
as `success`). -/
def processVisaDirect (payment_data : PaymentRequest) (success : Bool)
    (txSuffix : String) : SettlementResult :=
  if success then
    let fee := payment_data.amount * (settlement_configs .VISA_DIRECT).fee_rate
    { status := "completed"
      transaction_id := some ("VD_" ++ txSuffix)
      settlement_time := some "T+1"
      fee := some (round2 fee)
      net_amount := some (round2 (payment_data.amount - fee))
      error_code := none
      message := none
      rail := "Visa Direct" }
  else
    { status := "failed"
      transaction_id := none
      settlement_time := none
      fee := none
      net_amount := none
      error_code := some "NETWORK_ERROR"
      message := some "Temporary network issue, please retry"
      rail := "Visa Direct" }

/-- `PaymentOrchestrator.process_settlement`: dispatches on the rail; a
single settlement attempt, no retry. -/
def process_settlement (payment_data : PaymentRequest)
    (settlement_rail : SettlementRail) (success : Bool) (txSuffix : String) :
    SettlementResult :=
  match settlement_rail with
  | .ESWATINI_SWITCH => processEswatiniSwitch payment_data success txSuffix
  | .VISA_DIRECT => processVisaDirect payment_data success txSuffix

/-! ### Persistence model (`app/models/database.py`, `main.py`)

A SQLAlchemy session over the three tables the pipeline touches becomes an
explicit `DB` record: the `payments` table is a map from primary key to
row, the `transactions` table a list of rows in insertion order, and the
wall clock (`datetime.utcnow()`) a logical counter `now` that advances at
each timestamped ledger write.  Attribute assignments on a fetched row
take effect immediately (the source never rolls back, so every pending
change is persisted by a later `commit`). -/

/-- `PaymentStatus` enum from `app/models/database.py`. -/
inductive PaymentStatus where
  | PENDING
  | RISK_CHECK
  | PROCESSING
  | COMPLETED
  | FAILED
  deriving Repr, DecidableEq

/-- The string value of the enum member (`.value`). -/
def PaymentStatus.value : PaymentStatus → String
  | .PENDING => "pending"
  | .RISK_CHECK => "risk_check"
  | .PROCESSING => "processing"
  | .COMPLETED => "completed"
  | .FAILED => "failed"

/-- A row of the `payments` table. -/
structure Payment where
  id : String
  merchant_id : String
  customer_id : String
  amount : ℚ
  currency : String
  status : PaymentStatus
  risk_score : Option ℚ
  settlement_rail : Option SettlementRail
  settlement_response : Option SettlementResult
  error_message : Option String
  created_at : ℕ
  completed_at : Option ℕ
  deriving Repr, DecidableEq

/-- A row of the `transactions` table (one `TransactionLogEntry`); the
free-form JSON `details` payload is modelled as its rendered string. -/
structure Transaction where
  payment_id : String
  step : String
  status : String
  details : String
  timestamp : ℕ
  deriving Repr, DecidableEq

/-- The database state threaded through the embedded endpoints.
`registeredMerchants` holds the merchant ids for which
`MerchantService.authenticate_merchant_id` returns a row (registered,
APPROVED and active). -/
structure DB where
  payments : String → Option Payment
  transactions : List Transaction
  registeredMerchants : List String
  now : ℕ

/-- Mutate the payment row with primary key `pid` (attribute assignment on
the row fetched by `db.query(Payment).filter(Payment.id == payment_id)`). -/
def DB.updatePayment (db : DB) (pid : String) (f : Payment → Payment) : DB :=
  { db with payments := fun s => if s = pid then (db.payments s).map f else db.payments s }

/-- `log_transaction` from `main.py`: append one ledger row stamped with
the current clock, which then advances. -/
def DB.logTransaction (db : DB) (payment_id step status details : String) : DB :=
  { db with
    transactions := db.transactions ++
      [{ payment_id := payment_id, step := step, status := status,
         details := details, timestamp := db.now }]
    now := db.now + 1 }

/-! ### APIGateway (`app/services/api_gateway.py`) -/

/-- Python's `str.startswith`, modelled on the character lists of the two
strings (Lean's own byte-level `String.startsWith` does not reduce in the
kernel). -/
def strStartsWith (s pre : String) : Bool := pre.data.isPrefixOf s.data

/-- `APIGateway.authenticate_request`: if a database session is provided,
a lookup of the registered merchant is attempted first (any exception in
it — `lookupRaises` — is swallowed); a hit authenticates.  Otherwise the
legacy demo rule applies: any merchant id starting with `"MERCH_"` is
accepted. -/
def authenticate_request (merchant_id : String) (dbProvided : Bool)
    (registeredMerchants : List String) (lookupRaises : Bool) : Bool :=
  if dbProvided && !lookupRaises && registeredMerchants.contains merchant_id then
    true
  else strStartsWith merchant_id "MERCH_"

/-- The `rate_limits` dictionary of the `APIGateway`. -/
structure APIGatewayState where
  rate_limits : List (String × List ℕ)
  deriving Repr, DecidableEq

/-- Lookup of `self.rate_limits[merchant_id]` (empty once initialised). -/
def getRateList (l : List (String × List ℕ)) (mid : String) : List ℕ :=
  ((l.find? (fun p => p.1 == mid)).map Prod.snd).getD []

/-- Store back `self.rate_limits[merchant_id] = ts`. -/
def setRateList (l : List (String × List ℕ)) (mid : String) (ts : List ℕ) :
    List (String × List ℕ) :=
  if (l.find? (fun p => p.1 == mid)).isSome then
    l.map (fun p => if p.1 == mid then (p.1, ts) else p)
  else l ++ [(mid, ts)]

/-- `APIGateway.check_rate_limit`: keep only the timestamps of the last
minute (60 clock units), refuse when 10 or more remain, otherwise record
the current instant and accept. -/
def check_rate_limit (gw : APIGatewayState) (merchant_id : String) (now : ℕ) :
    Bool × APIGatewayState :=
  let recent := (getRateList gw.rate_limits merchant_id).filter (fun ts => now - ts < 60)
  if 10 ≤ recent.length then
    (false, { rate_limits := setRateList gw.rate_limits merchant_id recent })
  else
    (true, { rate_limits := setRateList gw.rate_limits merchant_id (recent ++ [now]) })

/-! ### The payment endpoints (`main.py`) -/

/-- `PaymentResponse` from `app/models/schemas.py`. -/
structure PaymentResponse where
  payment_id : String
  status : String
  message : String
  estimated_completion : Option String
  deriving Repr, DecidableEq

/-- The PENDING payment row inserted by `create_payment` (uuid `newId`,
`created_at` the current clock). -/
def pendingPayment (req : PaymentRequest) (newId : String) (t : ℕ) : Payment :=
  { id := newId
    merchant_id := req.merchant_id
    customer_id := req.customer_id
    amount := req.amount
    currency := req.currency
    status := .PENDING
    risk_score := none
    settlement_rail := none
    settlement_response := none
    error_message := none
    created_at := t
    completed_at := none }

/-- `create_payment` (`POST /api/v1/payments`): authenticate, rate-limit,
insert the PENDING payment row (with the generated uuid `newId`), append
the `"api_gateway"`/`"success"` ledger entry, and schedule the pipeline.
Rejections are the `HTTPException`s of the source, as (status code,
detail). -/
def create_payment (db : DB) (gw : APIGatewayState) (req : PaymentRequest)
    (newId : String) (lookupRaises : Bool) :
    Except (ℕ × String) (DB × APIGatewayState × PaymentResponse) :=
  if ¬ authenticate_request req.merchant_id true db.registeredMerchants lookupRaises then
    .error (401, "Invalid merchant credentials")
  else
    let checked := check_rate_limit gw req.merchant_id db.now
    if ¬ checked.1 then .error (429, "Rate limit exceeded")
    else
      let payment : Payment := pendingPayment req newId db.now
      let db1 : DB :=
        { db with payments := fun s => if s = newId then some payment else db.payments s }
      let db2 := db1.logTransaction newId "api_gateway" "success"
        "Payment request validated and accepted"
      .ok (db2, checked.2,
        { payment_id := newId
          status := "pending"
          message := "Payment initiated successfully"
          estimated_completion := some "2-5 seconds" })

/-- The place inside the `try:` block of `process_payment_pipeline` at
which an injected exception is raised. -/
inductive FaultPoint where
  | riskStage
  | routingStage
  | settlementStage
  deriving Repr, DecidableEq

/-- The environment of one pipeline run: the hidden inputs of the stages
(wall-clock hour, the risk engine's random draws, the settlement outcome
draw and transaction-id suffix) and an optional injected exception
(`fault`), carrying `str(e)`. -/
structure PipelineEnv where
  current_hour : ℕ
  velocityFlag : Bool
  ml_anomaly_score : ℚ
  settlementSuccess : Bool
  txSuffix : String
  fault : Option (FaultPoint × String)
  deriving Repr, DecidableEq

/-- Does the environment raise at fault point `fp`? -/
def faultAt (env : PipelineEnv) (fp : FaultPoint) : Bool :=
  match env.fault with
  | some (f, _) => f == fp
  | none => false

/-- The message `str(e)` of the injected exception. -/
def faultMsg (env : PipelineEnv) : String :=
  match env.fault with
  | some (_, m) => m
  | none => ""

/-- The risk assessment computed inside a pipeline run: the engine's
profiles are those of the process-global `risk_engine = RiskEngine()`
singleton, which stay empty. -/
def pipelineAssessment (req : PaymentRequest) (payment_id : String)
    (env : PipelineEnv) : RiskAssessment :=
  assess_risk initMerchantProfiles req payment_id env.current_hour
    env.velocityFlag env.ml_anomaly_score

/-- The settlement rail the pipeline selects (from the *returned*, rounded
risk score, as in the source). -/
def pipelineRail (req : PaymentRequest) (payment_id : String)
    (env : PipelineEnv) : SettlementRail :=
  select_settlement_rail req (pipelineAssessment req payment_id env).risk_score

/-- The settlement result of a pipeline run. -/
def pipelineSettlement (req : PaymentRequest) (payment_id : String)
    (env : PipelineEnv) : SettlementResult :=
  process_settlement req (pipelineRail req payment_id env)
    env.settlementSuccess env.txSuffix

/-- The body of the `try:` block of `process_payment_pipeline`: risk
check, optional decline, routing, settlement.  An injected exception
aborts with the database state reached so far and the exception
message. -/
def runStages (db0 : DB) (payment_id : String) (req : PaymentRequest)
    (env : PipelineEnv) : Except (DB × String) DB :=
  -- Step 2: risk assessment
  let db := db0.updatePayment payment_id (fun p => { p with status := .RISK_CHECK })
  if faultAt env .riskStage then .error (db, faultMsg env)
  else
    let a := pipelineAssessment req payment_id env
    let db := db.updatePayment payment_id (fun p => { p with risk_score := some a.risk_score })
    let db := db.logTransaction payment_id "risk_engine" "completed"
      ("risk_score: " ++ toString a.risk_score ++ "; recommendation: " ++ a.recommendation)
    if a.recommendation = "DECLINE" then
      let db := db.updatePayment payment_id (fun p =>
        { p with status := .FAILED
                 error_message := some "Transaction declined due to high risk score" })
      let db := db.logTransaction payment_id "risk_engine" "declined"
        ("reason: High risk score; risk_score: " ++ toString a.risk_score)
      .ok db
    else
      -- Step 3: orchestration
      let db := db.updatePayment payment_id (fun p => { p with status := .PROCESSING })
      if faultAt env .routingStage then .error (db, faultMsg env)
      else
        let rail := pipelineRail req payment_id env
        let db := db.updatePayment payment_id (fun p => { p with settlement_rail := some rail })
        let db := db.logTransaction payment_id "orchestrator" "routing"
          ("selected_rail: " ++ rail.value ++ "; reason: Amount: " ++ toString req.amount
            ++ ", Risk: " ++ toString a.risk_score)
        if faultAt env .settlementStage then .error (db, faultMsg env)
        else
          -- Step 4: settlement
          let r := pipelineSettlement req payment_id env
          let db := db.updatePayment payment_id (fun p => { p with settlement_response := some r })
          if r.status = "completed" then
            let db := db.updatePayment payment_id (fun p =>
              { p with status := .COMPLETED, completed_at := some db.now })
            let db := db.logTransaction payment_id "settlement" "completed"
              ("settlement result: " ++ r.status)
            .ok db
          else
            let db := db.updatePayment payment_id (fun p =>
              { p with status := .FAILED
                       error_message := some (r.message.getD "Settlement failed") })
            let db := db.logTransaction payment_id "settlement" "failed"
              ("settlement result: " ++ r.status)
            .ok db

/-- `process_payment_pipeline`: run the stages; any exception is caught
here, once, and converted to a FAILED payment with a `"System error: "`
message and a `"system"`/`"error"` ledger entry.  The function is total:
no exception escapes a run. -/
def process_payment_pipeline (db0 : DB) (payment_id : String)
    (req : PaymentRequest) (env : PipelineEnv) : DB :=
  match runStages db0 payment_id req env with
  | .ok db => db
  | .error (db, msg) =>
    let db := db.updatePayment payment_id (fun p =>
      { p with status := .FAILED, error_message := some ("System error: " ++ msg) })
    db.logTransaction payment_id "system" "error" ("error: " ++ msg)

/-! ### Status reader (`GET /api/v1/payments/{payment_id}`) -/

/-- Timestamp order on ledger rows (the `order_by(Transaction.timestamp)`
of the status reader). -/
def tsLe (a b : Transaction) : Prop := a.timestamp ≤ b.timestamp

instance : DecidableRel tsLe := fun a b => Nat.decLe a.timestamp b.timestamp

instance : IsTotal Transaction tsLe := ⟨fun a b => Nat.le_total a.timestamp b.timestamp⟩

instance : IsTrans Transaction tsLe := ⟨fun _ _ _ => Nat.le_trans⟩

/-- `get_payment_status`: the payment row (or `none` for a 404) together
with its ledger rows ordered by timestamp (a stable sort models the SQL
`ORDER BY timestamp`). -/
def get_payment_status (db : DB) (payment_id : String) :
    Option (Payment × List Transaction) :=
  (db.payments payment_id).map (fun p =>
    (p, List.insertionSort tsLe (db.transactions.filter (fun t => t.payment_id == payment_id))))

/-! ### Concrete inputs used in witnesses and counterexamples -/

/-- A low-risk request: small amount, local currency, no location. -/
def reqLow : PaymentRequest :=
  { merchant_id := "MERCH_001", customer_id := "CUST_001", amount := 100,
    currency := "SZL", payment_method := "qr_code", customer_location := none }

/-- The spec's fee-arithmetic request: amount 1000, local currency. -/
def req1000 : PaymentRequest :=
  { merchant_id := "MERCH_001", customer_id := "CUST_001", amount := 1000,
    currency := "SZL", payment_method := "qr_code",
    customer_location := some "Manzini" }

/-- The spec's forced-high-risk scenario request: amount 50000, local
currency. -/
def reqHigh : PaymentRequest :=
  { merchant_id := "MERCH_001", customer_id := "CUST_001", amount := 50000,
    currency := "SZL", payment_method := "qr_code",
    customer_location := some "Manzini" }

/-- An unregistered merchant id carrying the legacy prefix. -/
def reqGhost : PaymentRequest :=
  { merchant_id := "MERCH_GHOST", customer_id := "CUST_001", amount := 50,
    currency := "SZL", payment_method := "qr_code", customer_location := none }

/-- An empty database. -/
def emptyDB : DB :=
  { payments := fun _ => none, transactions := [], registeredMerchants := [],
    now := 0 }

/-- A freshly constructed `APIGateway`'s rate-limit state. -/
def gwInit : APIGatewayState := { rate_limits := [] }

/-! ### C1 — every run terminates in COMPLETED or FAILED; exceptions are
caught once at the top -/

/-- Count of `"system"`/`"error"` ledger entries. -/
def sysErrCount (l : List Transaction) : ℕ :=
  (l.filter (fun t => t.step == "system" && t.status == "error")).length

/-- The exception (if any) raised by the stages of a pipeline run:
`runStages` returning `.error` models a Python exception reaching the
top-level `except` handler. -/
def raisedMsg (db0 : DB) (pid : String) (req : PaymentRequest)
    (env : PipelineEnv) : Option String :=
  match runStages db0 pid req env with
  | .ok _ => none
  | .error (_, m) => some m

/-! ### Concrete runs -/

/-- A pending payment row for `reqLow`. -/
def p0Pending : Payment := pendingPayment reqLow "PAY_1" 0

/-- A database holding just that payment. -/
def dbOne : DB :=
  { payments := fun s => if s = "PAY_1" then some p0Pending else none,
    transactions := [], registeredMerchants := [], now := 1 }

/-- A pending payment row for the high-amount request. -/
def p0High : Payment := pendingPayment reqHigh "PAY_1" 0

/-- A database holding just the high-amount payment. -/
def dbHigh : DB :=
  { payments := fun s => if s = "PAY_1" then some p0High else none,
    transactions := [], registeredMerchants := [], now := 1 }

/-- An environment raising an exception during the settlement stage. -/
def envBoom : PipelineEnv :=
  { current_hour := 12, velocityFlag := false, ml_anomaly_score := 0,
    settlementSuccess := true, txSuffix := "AB12CD34",
    fault := some (.settlementStage, "boom") }

/-- A fault-free environment whose draws force the high-risk decline for
`reqHigh`: unusual hour (+0.2), high amount (+0.3), new merchant (+0.1)
and anomaly 0.15 give a score of 0.75 > 0.7. -/
def envDecline : PipelineEnv :=
  { current_hour := 2, velocityFlag := false, ml_anomaly_score := 0.15,
    settlementSuccess := true, txSuffix := "AB12CD34", fault := none }

/-! ### C8 — stage and status names of every appended ledger entry -/

/-- The stage names the code actually writes (`main.py`). -/
def pipelineStepNames : List String :=
  ["api_gateway", "risk_engine", "orchestrator", "settlement", "system"]

/-- The stage statuses the code writes. -/
def stageStatusNames : List String :=
  ["success", "completed", "declined", "failed", "error", "routing"]

/-- The stage-name set claimed by the spec's data model (§3), written
`"gateway"` rather than `"api_gateway"`. -/
def specStageNames : List String :=
  ["gateway", "risk_engine", "orchestrator", "settlement", "system"]

/-- The `"api_gateway"`/`"success"` ledger entry of the concrete creation
below. -/
def apigwEntry : Transaction :=
  { payment_id := "PAY_1", step := "api_gateway", status := "success",
    details := "Payment request validated and accepted", timestamp := 0 }

/-- The database after `create_payment emptyDB gwInit reqLow "PAY_1" false`. -/
def dbAfterCreate : DB :=
  { payments := fun s => if s = "PAY_1" then some (pendingPayment reqLow "PAY_1" 0) else none,
    transactions := [apigwEntry], registeredMerchants := [], now := 1 }

/-- The gateway state after that creation. -/
def gwAfterCreate : APIGatewayState := { rate_limits := [("MERCH_001", [0])] }

/-- The response of that creation. -/
def respAfterCreate : PaymentResponse :=
  { payment_id := "PAY_1", status := "pending",
    message := "Payment initiated successfully",
    estimated_completion := some "2-5 seconds" }

/-- A fault-free, all-benign environment: hour 12, anomaly 0, settlement
succeeds. -/
def envOk : PipelineEnv :=
  { current_hour := 12, velocityFlag := false, ml_anomaly_score := 0,
    settlementSuccess := true, txSuffix := "AB12CD34", fault := none }

/-! ## Theorems -/

theorem roundHalfEven_cases (x : ℚ) :
    roundHalfEven x = ⌊x⌋ ∨ roundHalfEven x = ⌊x⌋ + 1 := by
  unfold roundHalfEven
  split_ifs <;> simp

theorem abs_roundHalfEven_sub_le (x : ℚ) : |(roundHalfEven x : ℚ) - x| ≤ 1/2 := by
  have hfl : (⌊x⌋ : ℚ) ≤ x := Int.floor_le x
  have hfu : x < (⌊x⌋ : ℚ) + 1 := Int.lt_floor_add_one x
  unfold roundHalfEven
  split_ifs with h h' h'' <;> push_cast <;> rw [abs_le] <;> constructor <;> linarith

theorem roundHalfEven_nonneg {x : ℚ} (hx : 0 ≤ x) : 0 ≤ roundHalfEven x := by
  have h0 : (0 : ℤ) ≤ ⌊x⌋ := Int.floor_nonneg.2 hx
  rcases roundHalfEven_cases x with h | h <;> omega

theorem roundHalfEven_le {x : ℚ} {n : ℤ} (hx : x ≤ (n : ℚ)) :
    roundHalfEven x ≤ n := by
  have hfn : ⌊x⌋ ≤ n := by
    have := Int.floor_mono hx
    simpa using this
  have hfl : (⌊x⌋ : ℚ) ≤ x := Int.floor_le x
  by_cases hflt : (⌊x⌋ : ℚ) < x
  · -- ⌊x⌋ < x ≤ n forces ⌊x⌋ < n, so even ⌊x⌋ + 1 ≤ n
    have : (⌊x⌋ : ℚ) < (n : ℚ) := lt_of_lt_of_le hflt hx
    have hn : ⌊x⌋ < n := by exact_mod_cast this
    rcases roundHalfEven_cases x with h | h <;> omega
  · -- x = ⌊x⌋: the fractional part is 0 < 1/2, first branch applies
    have hx0 : x - (⌊x⌋ : ℚ) = 0 := by
      have : x ≤ (⌊x⌋ : ℚ) := not_lt.1 hflt
      linarith
    have : roundHalfEven x = ⌊x⌋ := by
      unfold roundHalfEven
      rw [if_pos (by rw [hx0]; norm_num)]
    omega

theorem round3_nonneg {x : ℚ} (hx : 0 ≤ x) : 0 ≤ round3 x := by
  unfold round3
  have := roundHalfEven_nonneg (x := x * 1000) (by positivity)
  positivity

theorem round3_le_one {x : ℚ} (hx : x ≤ 1) : round3 x ≤ 1 := by
  unfold round3
  have h : roundHalfEven (x * 1000) ≤ (1000 : ℤ) :=
    roundHalfEven_le (by push_cast; linarith)
  rw [div_le_one (by norm_num)]
  exact_mod_cast h

theorem abs_round3_sub_le (x : ℚ) : |round3 x - x| ≤ 1/2000 := by
  unfold round3
  have h := abs_roundHalfEven_sub_le (x * 1000)
  have : |((roundHalfEven (x * 1000) : ℚ) - x * 1000) / 1000| ≤ (1/2) / 1000 := by
    rw [abs_div]
    apply div_le_div_of_nonneg_right h (by norm_num) |>.trans_eq
    · norm_num
  calc |(roundHalfEven (x * 1000) : ℚ) / 1000 - x|
      = |((roundHalfEven (x * 1000) : ℚ) - x * 1000) / 1000| := by ring_nf
    _ ≤ (1/2) / 1000 := this
    _ = 1/2000 := by norm_num

/-! ### Helper lemmas on the risk engine -/

theorem rawRiskScore_nonneg (profiles : List String) (req : PaymentRequest)
    (hour : ℕ) (vf : Bool) {a : ℚ} (ha : 0 ≤ a) :
    0 ≤ rawRiskScore profiles req hour vf a := by
  unfold rawRiskScore merchantHistoryScore
  rcases hc : req.customer_location with _ | loc <;>
    simp only [hc] <;> split_ifs <;> norm_num <;> linarith

theorem recommendationOf_eq_approve {s : ℚ} :
    recommendationOf s = "APPROVE" ↔ s < 0.3 := by
  unfold recommendationOf
  split_ifs with h1 h2 <;> simp_all

theorem recommendationOf_eq_review {s : ℚ} :
    recommendationOf s = "REVIEW" ↔ (0.3 ≤ s ∧ s < 0.7) := by
  unfold recommendationOf
  split_ifs with h1 h2 <;> simp_all <;> linarith

theorem recommendationOf_eq_decline {s : ℚ} :
    recommendationOf s = "DECLINE" ↔ 0.7 ≤ s := by
  unfold recommendationOf
  split_ifs with h1 h2 <;> simp_all <;> linarith

/-! ### C2 — risk score range, rounding and recommendation thresholds -/

/-- C2, counterexample: at anomaly score 0.1996 (a legal draw from
`random.uniform(0, 0.3)`) with no other factor than "new merchant", the
accumulated score is 0.2996, so `assess_risk` recommends APPROVE, yet the
*returned* (3-decimal-rounded) risk score is exactly 0.300 — contradicting
the claim that APPROVE holds iff the returned score is < 0.3 (and that a
returned 0.300 implies REVIEW). -/
theorem assess_risk_threshold_counterexample :
    (assess_risk initMerchantProfiles reqLow "PAY_1" 12 false (0.1996 : ℚ)).recommendation
      = "APPROVE" ∧
    (assess_risk initMerchantProfiles reqLow "PAY_1" 12 false (0.1996 : ℚ)).risk_score
      = 0.3 ∧
    ¬ ((assess_risk initMerchantProfiles reqLow "PAY_1" 12 false (0.1996 : ℚ)).risk_score
      < 0.3) := by
  refine ⟨?_, ?_, ?_⟩ <;>
    norm_num [assess_risk, clampedRiskScore, rawRiskScore, merchantHistoryScore,
      recommendationOf, round3, roundHalfEven, initMerchantProfiles, reqLow,
      highAmountThreshold, unusualHours]

/-- C2 (amended): for every request and every legal anomaly draw, the
returned risk score lies in [0, 1] and is an integer multiple of 0.001; the
recommendation is one of APPROVE/REVIEW/DECLINE, determined by the
thresholds 0.3 and 0.7 on the score *before* rounding, so on the returned
score the thresholds hold up to the rounding half-step 1/2000. -/
theorem assess_risk_bounds (profiles : List String) (req : PaymentRequest)
    (pid : String) (hour : ℕ) (vf : Bool) (a : ℚ)
    (ha0 : 0 ≤ a) (ha1 : a ≤ 0.3) :
    0 ≤ (assess_risk profiles req pid hour vf a).risk_score ∧
    (assess_risk profiles req pid hour vf a).risk_score ≤ 1 ∧
    (∃ n : ℤ, (assess_risk profiles req pid hour vf a).risk_score = (n : ℚ) / 1000) ∧
    ((assess_risk profiles req pid hour vf a).recommendation = "APPROVE" ∨
     (assess_risk profiles req pid hour vf a).recommendation = "REVIEW" ∨
     (assess_risk profiles req pid hour vf a).recommendation = "DECLINE") ∧
    ((assess_risk profiles req pid hour vf a).recommendation = "APPROVE" →
      (assess_risk profiles req pid hour vf a).risk_score < 0.3 + 1/2000) ∧
    ((assess_risk profiles req pid hour vf a).recommendation = "REVIEW" →
      0.3 - 1/2000 ≤ (assess_risk profiles req pid hour vf a).risk_score ∧
      (assess_risk profiles req pid hour vf a).risk_score < 0.7 + 1/2000) ∧
    ((assess_risk profiles req pid hour vf a).recommendation = "DECLINE" →
      0.7 - 1/2000 ≤ (assess_risk profiles req pid hour vf a).risk_score) := by
  have hs0 : 0 ≤ clampedRiskScore profiles req hour vf a :=
    le_min (rawRiskScore_nonneg profiles req hour vf ha0) (by norm_num)
  have hs1 : clampedRiskScore profiles req hour vf a ≤ 1 := min_le_right _ _
  have hrs : (assess_risk profiles req pid hour vf a).risk_score
      = round3 (clampedRiskScore profiles req hour vf a) := rfl
  have hrec : (assess_risk profiles req pid hour vf a).recommendation
      = recommendationOf (clampedRiskScore profiles req hour vf a) := rfl
  have habs := abs_round3_sub_le (clampedRiskScore profiles req hour vf a)
  rw [abs_le] at habs
  refine ⟨?_, ?_, ?_, ?_, ?_, ?_, ?_⟩
  · rw [hrs]; exact round3_nonneg hs0
  · rw [hrs]; exact round3_le_one hs1
  · exact ⟨roundHalfEven (clampedRiskScore profiles req hour vf a * 1000), rfl⟩
  · rw [hrec]; unfold recommendationOf; split_ifs <;> simp
  · rw [hrec, hrs]
    intro h
    have := recommendationOf_eq_approve.1 h
    linarith [habs.1, habs.2]
  · rw [hrec, hrs]
    intro h
    have := recommendationOf_eq_review.1 h
    constructor <;> linarith [habs.1, habs.2, this.1, this.2]
  · rw [hrec, hrs]
    intro h
    have := recommendationOf_eq_decline.1 h
    linarith [habs.1, habs.2]

/-- Witness for `assess_risk_bounds` at a concrete input. -/
theorem assess_risk_bounds_witness :
    0 ≤ (assess_risk initMerchantProfiles reqLow "PAY_1" 12 false 0).risk_score ∧
    (assess_risk initMerchantProfiles reqLow "PAY_1" 12 false 0).risk_score ≤ 1 :=
  ⟨(assess_risk_bounds initMerchantProfiles reqLow "PAY_1" 12 false 0
      (by norm_num) (by norm_num)).1,
   (assess_risk_bounds initMerchantProfiles reqLow "PAY_1" 12 false 0
      (by norm_num) (by norm_num)).2.1⟩

/-! ### C3 — settlement-rail selection -/

/-- C3: `select_settlement_rail` is a pure function of
(currency, amount, riskScore); the rail is VISA_DIRECT exactly when the
risk score exceeds 0.7 or the request is not a small local-currency
payment, and ESWATINI_SWITCH exactly otherwise — the first-match-wins
reading of the source's rule list. -/
theorem select_settlement_rail_spec (req : PaymentRequest) (s : ℚ) :
    (select_settlement_rail req s = .ESWATINI_SWITCH ↔
      s ≤ 0.7 ∧ req.currency = "SZL" ∧
      req.amount ≤ (settlement_configs .ESWATINI_SWITCH).max_amount) ∧
    (select_settlement_rail req s = .VISA_DIRECT ↔
      (0.7 < s ∨ ¬(req.currency = "SZL" ∧
        req.amount ≤ (settlement_configs .ESWATINI_SWITCH).max_amount))) := by
  unfold select_settlement_rail
  by_cases h1 : s > 0.7
  · rw [if_pos h1]
    exact ⟨iff_of_false (by simp) (fun h => absurd h1 (not_lt.2 h.1)),
      iff_of_true rfl (Or.inl h1)⟩
  · rw [if_neg h1]
    by_cases h2 : req.currency = "SZL" ∧
        req.amount ≤ (settlement_configs .ESWATINI_SWITCH).max_amount
    · rw [if_pos h2]
      exact ⟨iff_of_true rfl ⟨not_lt.1 h1, h2.1, h2.2⟩,
        iff_of_false (by simp) (fun h => h.elim h1 (fun hn => hn h2))⟩
    · rw [if_neg h2]
      exact ⟨iff_of_false (by simp) (fun h => h2 ⟨h.2.1, h.2.2⟩),
        iff_of_true rfl (Or.inr h2)⟩

/-! ### C4 — settlement processing -/

/-- C4: on success, `process_settlement` returns a completed result with a
rail-specific transaction id, fee = amount × rail fee rate and net =
amount − fee, both rounded to 2 decimals; on failure it returns a failed
result whose error code is INSUFFICIENT_FUNDS on the local rail and
NETWORK_ERROR on the international one, with a human-readable message.
The rates are 0.015 / 0.025, giving fee 15 / net 985 resp. fee 25 /
net 975 at amount 1000.  A run of `process_settlement` is a single
attempt: the outcome is a function of one success draw. -/
theorem process_settlement_spec (req : PaymentRequest) (suffix : String) :
    (process_settlement req .ESWATINI_SWITCH true suffix).status = "completed" ∧
    (process_settlement req .ESWATINI_SWITCH true suffix).transaction_id
      = some ("ESW_" ++ suffix) ∧
    (process_settlement req .ESWATINI_SWITCH true suffix).fee
      = some (round2 (req.amount * (settlement_configs .ESWATINI_SWITCH).fee_rate)) ∧
    (process_settlement req .ESWATINI_SWITCH true suffix).net_amount
      = some (round2 (req.amount
          - req.amount * (settlement_configs .ESWATINI_SWITCH).fee_rate)) ∧
    (process_settlement req .VISA_DIRECT true suffix).status = "completed" ∧
    (process_settlement req .VISA_DIRECT true suffix).transaction_id
      = some ("VD_" ++ suffix) ∧
    (process_settlement req .VISA_DIRECT true suffix).fee
      = some (round2 (req.amount * (settlement_configs .VISA_DIRECT).fee_rate)) ∧
    (process_settlement req .VISA_DIRECT true suffix).net_amount
      = some (round2 (req.amount
          - req.amount * (settlement_configs .VISA_DIRECT).fee_rate)) ∧
    (process_settlement req .ESWATINI_SWITCH false suffix).status = "failed" ∧
    (process_settlement req .ESWATINI_SWITCH false suffix).error_code
      = some "INSUFFICIENT_FUNDS" ∧
    (process_settlement req .ESWATINI_SWITCH false suffix).message
      = some "Transaction declined by issuing bank" ∧
    (process_settlement req .VISA_DIRECT false suffix).status = "failed" ∧
    (process_settlement req .VISA_DIRECT false suffix).error_code
      = some "NETWORK_ERROR" ∧
    (process_settlement req .VISA_DIRECT false suffix).message
      = some "Temporary network issue, please retry" ∧
    (settlement_configs .ESWATINI_SWITCH).fee_rate = 0.015 ∧
    (settlement_configs .VISA_DIRECT).fee_rate = 0.025 ∧
    round2 ((1000 : ℚ) * 0.015) = 15 ∧
    round2 ((1000 : ℚ) - 1000 * 0.015) = 985 ∧
    round2 ((1000 : ℚ) * 0.025) = 25 ∧
    round2 ((1000 : ℚ) - 1000 * 0.025) = 975 := by
  refine ⟨rfl, rfl, rfl, rfl, rfl, rfl, rfl, rfl, rfl, rfl, rfl, rfl, rfl, rfl,
    by norm_num [settlement_configs], by norm_num [settlement_configs],
    ?_, ?_, ?_, ?_⟩ <;>
    norm_num [round2, roundHalfEven]

/-! ### C9 — merchant profiles are empty, velocity check unreachable -/

/-- C9: the engine's `merchant_profiles` starts empty (and nothing in the
repository writes it — `assess_risk` returns only an assessment), so in
every call the merchant-history branch yields the "New merchant" factor
with increment +0.10, that factor is in the returned list, and the
velocity flag (the +0.40 branch) has no influence at all on the result. -/
theorem risk_engine_profiles_empty (req : PaymentRequest) (pid : String)
    (hour : ℕ) (vf vf' : Bool) (a : ℚ) :
    initMerchantProfiles = [] ∧
    merchantHistoryFactors initMerchantProfiles req.merchant_id vf
      = ["New merchant - limited history"] ∧
    merchantHistoryScore initMerchantProfiles req.merchant_id vf = 0.1 ∧
    "New merchant - limited history" ∈
      (assess_risk initMerchantProfiles req pid hour vf a).risk_factors ∧
    assess_risk initMerchantProfiles req pid hour vf a
      = assess_risk initMerchantProfiles req pid hour vf' a := by
  refine ⟨rfl, ?_, ?_, ?_, ?_⟩
  · simp [merchantHistoryFactors, initMerchantProfiles]
  · simp [merchantHistoryScore, initMerchantProfiles]
  · show "New merchant - limited history" ∈
      riskFactorsOf initMerchantProfiles req hour vf
    simp [riskFactorsOf, merchantHistoryFactors, initMerchantProfiles]
  · unfold assess_risk clampedRiskScore rawRiskScore riskFactorsOf
      merchantHistoryFactors merchantHistoryScore initMerchantProfiles
    simp

/-! ### C10 — prefix-based legacy authentication -/

/-- Any merchant id with the `"MERCH_"` prefix authenticates, whatever the
registered-merchant table holds and whether or not the lookup raises. -/
theorem authenticate_request_of_startsWith (mid : String) (dbProvided : Bool)
    (registered : List String) (lookupRaises : Bool)
    (h : strStartsWith mid "MERCH_" = true) :
    authenticate_request mid dbProvided registered lookupRaises = true := by
  unfold authenticate_request
  split_ifs <;> simp [h]

/-! ### Branch characterisations of a pipeline run -/
theorem pipeline_fault_risk (db0 : DB) (pid : String) (req : PaymentRequest)
    (env : PipelineEnv) (p0 : Payment) (m : String)
    (h0 : db0.payments pid = some p0)
    (hf : env.fault = some (.riskStage, m)) :
    runStages db0 pid req env
      = .error (db0.updatePayment pid (fun p => { p with status := .RISK_CHECK }), m) ∧
    (process_payment_pipeline db0 pid req env).payments pid
      = some { p0 with
               status := .FAILED
               error_message := some ("System error: " ++ m) } ∧
    (process_payment_pipeline db0 pid req env).transactions
      = db0.transactions ++
        [{ payment_id := pid, step := "system", status := "error",
           details := "error: " ++ m, timestamp := db0.now }] ∧
    (process_payment_pipeline db0 pid req env).now = db0.now + 1 := by
  have hrun : runStages db0 pid req env
      = .error (db0.updatePayment pid (fun p => { p with status := .RISK_CHECK }), m) := by
    unfold runStages
    simp [faultAt, faultMsg, hf]
  refine ⟨hrun, ?_, ?_, ?_⟩ <;>
    simp [process_payment_pipeline, hrun, DB.updatePayment, DB.logTransaction, h0, faultMsg, hf]

theorem process_settlement_status_success (req : PaymentRequest)
    (rail : SettlementRail) (suffix : String) :
    (process_settlement req rail true suffix).status = "completed" := by
  cases rail <;> rfl

theorem process_settlement_status_failure (req : PaymentRequest)
    (rail : SettlementRail) (suffix : String) :
    (process_settlement req rail false suffix).status = "failed" := by
  cases rail <;> rfl

theorem pipeline_fault_routing (db0 : DB) (pid : String) (req : PaymentRequest)
    (env : PipelineEnv) (p0 : Payment) (m : String)
    (h0 : db0.payments pid = some p0)
    (hf : env.fault = some (.routingStage, m))
    (hnd : (pipelineAssessment req pid env).recommendation ≠ "DECLINE") :
    (∃ dbe, runStages db0 pid req env = .error (dbe, m)) ∧
    (process_payment_pipeline db0 pid req env).payments pid
      = some { p0 with
               status := .FAILED
               risk_score := some (pipelineAssessment req pid env).risk_score
               error_message := some ("System error: " ++ m) } ∧
    (process_payment_pipeline db0 pid req env).transactions
      = db0.transactions ++
        [{ payment_id := pid, step := "risk_engine", status := "completed",
           details := "risk_score: " ++ toString (pipelineAssessment req pid env).risk_score
             ++ "; recommendation: " ++ (pipelineAssessment req pid env).recommendation,
           timestamp := db0.now },
         { payment_id := pid, step := "system", status := "error",
           details := "error: " ++ m, timestamp := db0.now + 1 }] ∧
    (process_payment_pipeline db0 pid req env).now = db0.now + 2 := by
  have hfa1 : faultAt env .riskStage = false := by simp [faultAt, hf]
  have hfa2 : faultAt env .routingStage = true := by simp [faultAt, hf]
  have hm : faultMsg env = m := by simp [faultMsg, hf]
  have hrun : ∃ dbe, runStages db0 pid req env = .error (dbe, m) := by
    unfold runStages
    simp only [hfa1, hfa2, hm, Bool.false_eq_true, if_false, if_true, hnd, ite_false]
    exact ⟨_, rfl⟩
  obtain ⟨dbe, hrune⟩ := hrun
  refine ⟨⟨dbe, hrune⟩, ?_, ?_, ?_⟩ <;>
  · unfold process_payment_pipeline runStages
    simp [hfa1, hfa2, hm, hnd, DB.updatePayment, DB.logTransaction, h0]

theorem pipeline_fault_settlement (db0 : DB) (pid : String) (req : PaymentRequest)
    (env : PipelineEnv) (p0 : Payment) (m : String)
    (h0 : db0.payments pid = some p0)
    (hf : env.fault = some (.settlementStage, m))
    (hnd : (pipelineAssessment req pid env).recommendation ≠ "DECLINE") :
    (∃ dbe, runStages db0 pid req env = .error (dbe, m)) ∧
    (process_payment_pipeline db0 pid req env).payments pid
      = some { p0 with
               status := .FAILED
               risk_score := some (pipelineAssessment req pid env).risk_score
               settlement_rail := some (pipelineRail req pid env)
               error_message := some ("System error: " ++ m) } ∧
    (process_payment_pipeline db0 pid req env).transactions
      = db0.transactions ++
        [{ payment_id := pid, step := "risk_engine", status := "completed",
           details := "risk_score: " ++ toString (pipelineAssessment req pid env).risk_score
             ++ "; recommendation: " ++ (pipelineAssessment req pid env).recommendation,
           timestamp := db0.now },
         { payment_id := pid, step := "orchestrator", status := "routing",
           details := "selected_rail: " ++ (pipelineRail req pid env).value
             ++ "; reason: Amount: " ++ toString req.amount
             ++ ", Risk: " ++ toString (pipelineAssessment req pid env).risk_score,
           timestamp := db0.now + 1 },
         { payment_id := pid, step := "system", status := "error",
           details := "error: " ++ m, timestamp := db0.now + 2 }] ∧
    (process_payment_pipeline db0 pid req env).now = db0.now + 3 := by
  have hfa1 : faultAt env .riskStage = false := by simp [faultAt, hf]
  have hfa2 : faultAt env .routingStage = false := by simp [faultAt, hf]
  have hfa3 : faultAt env .settlementStage = true := by simp [faultAt, hf]
  have hm : faultMsg env = m := by simp [faultMsg, hf]
  have hrun : ∃ dbe, runStages db0 pid req env = .error (dbe, m) := by
    unfold runStages
    simp only [hfa1, hfa2, hfa3, hm, Bool.false_eq_true, if_false, if_true, hnd, ite_false]
    exact ⟨_, rfl⟩
  obtain ⟨dbe, hrune⟩ := hrun
  refine ⟨⟨dbe, hrune⟩, ?_, ?_, ?_⟩ <;>
  · unfold process_payment_pipeline runStages
    simp [hfa1, hfa2, hfa3, hm, hnd, DB.updatePayment, DB.logTransaction, h0]

theorem pipeline_declined (db0 : DB) (pid : String) (req : PaymentRequest)
    (env : PipelineEnv) (p0 : Payment)
    (h0 : db0.payments pid = some p0)
    (hf1 : faultAt env .riskStage = false)
    (hd : (pipelineAssessment req pid env).recommendation = "DECLINE") :
    (∃ dbo, runStages db0 pid req env = .ok dbo) ∧
    (process_payment_pipeline db0 pid req env).payments pid
      = some { p0 with
               status := .FAILED
               risk_score := some (pipelineAssessment req pid env).risk_score
               error_message := some "Transaction declined due to high risk score" } ∧
    (process_payment_pipeline db0 pid req env).transactions
      = db0.transactions ++
        [{ payment_id := pid, step := "risk_engine", status := "completed",
           details := "risk_score: " ++ toString (pipelineAssessment req pid env).risk_score
             ++ "; recommendation: " ++ (pipelineAssessment req pid env).recommendation,
           timestamp := db0.now },
         { payment_id := pid, step := "risk_engine", status := "declined",
           details := "reason: High risk score; risk_score: "
             ++ toString (pipelineAssessment req pid env).risk_score,
           timestamp := db0.now + 1 }] ∧
    (process_payment_pipeline db0 pid req env).now = db0.now + 2 := by
  have hrun : ∃ dbo, runStages db0 pid req env = .ok dbo := by
    unfold runStages
    simp only [hf1, Bool.false_eq_true, if_false, hd, ite_true]
    exact ⟨_, rfl⟩
  refine ⟨hrun, ?_, ?_, ?_⟩ <;>
  · unfold process_payment_pipeline runStages
    simp [hf1, hd, DB.updatePayment, DB.logTransaction, h0]

theorem pipeline_settled (db0 : DB) (pid : String) (req : PaymentRequest)
    (env : PipelineEnv) (p0 : Payment)
    (h0 : db0.payments pid = some p0)
    (hfn : env.fault = none)
    (hnd : (pipelineAssessment req pid env).recommendation ≠ "DECLINE")
    (hsucc : env.settlementSuccess = true) :
    (∃ dbo, runStages db0 pid req env = .ok dbo) ∧
    (process_payment_pipeline db0 pid req env).payments pid
      = some { p0 with
               status := .COMPLETED
               risk_score := some (pipelineAssessment req pid env).risk_score
               settlement_rail := some (pipelineRail req pid env)
               settlement_response := some (pipelineSettlement req pid env)
               completed_at := some (db0.now + 2) } ∧
    (process_payment_pipeline db0 pid req env).transactions
      = db0.transactions ++
        [{ payment_id := pid, step := "risk_engine", status := "completed",
           details := "risk_score: " ++ toString (pipelineAssessment req pid env).risk_score
             ++ "; recommendation: " ++ (pipelineAssessment req pid env).recommendation,
           timestamp := db0.now },
         { payment_id := pid, step := "orchestrator", status := "routing",
           details := "selected_rail: " ++ (pipelineRail req pid env).value
             ++ "; reason: Amount: " ++ toString req.amount
             ++ ", Risk: " ++ toString (pipelineAssessment req pid env).risk_score,
           timestamp := db0.now + 1 },
         { payment_id := pid, step := "settlement", status := "completed",
           details := "settlement result: "
             ++ (pipelineSettlement req pid env).status,
           timestamp := db0.now + 2 }] ∧
    (process_payment_pipeline db0 pid req env).now = db0.now + 3 := by
  have hfa1 : faultAt env .riskStage = false := by simp [faultAt, hfn]
  have hfa2 : faultAt env .routingStage = false := by simp [faultAt, hfn]
  have hfa3 : faultAt env .settlementStage = false := by simp [faultAt, hfn]
  have hst : (pipelineSettlement req pid env).status = "completed" := by
    unfold pipelineSettlement
    rw [hsucc]
    exact process_settlement_status_success req _ env.txSuffix
  have hrun : ∃ dbo, runStages db0 pid req env = .ok dbo := by
    unfold runStages
    simp only [hfa1, hfa2, hfa3, Bool.false_eq_true, if_false, hnd, ite_false, hst, ite_true]
    exact ⟨_, rfl⟩
  refine ⟨hrun, ?_, ?_, ?_⟩ <;>
  · unfold process_payment_pipeline runStages
    simp [hfa1, hfa2, hfa3, hnd, hst, DB.updatePayment, DB.logTransaction, h0]

theorem pipeline_settlement_failed (db0 : DB) (pid : String) (req : PaymentRequest)
    (env : PipelineEnv) (p0 : Payment)
    (h0 : db0.payments pid = some p0)
    (hfn : env.fault = none)
    (hnd : (pipelineAssessment req pid env).recommendation ≠ "DECLINE")
    (hfail : env.settlementSuccess = false) :
    (∃ dbo, runStages db0 pid req env = .ok dbo) ∧
    (process_payment_pipeline db0 pid req env).payments pid
      = some { p0 with
               status := .FAILED
               risk_score := some (pipelineAssessment req pid env).risk_score
               settlement_rail := some (pipelineRail req pid env)
               settlement_response := some (pipelineSettlement req pid env)
               error_message := some ((pipelineSettlement req pid env).message.getD
                 "Settlement failed") } ∧
    (process_payment_pipeline db0 pid req env).transactions
      = db0.transactions ++
        [{ payment_id := pid, step := "risk_engine", status := "completed",
           details := "risk_score: " ++ toString (pipelineAssessment req pid env).risk_score
             ++ "; recommendation: " ++ (pipelineAssessment req pid env).recommendation,
           timestamp := db0.now },
         { payment_id := pid, step := "orchestrator", status := "routing",
           details := "selected_rail: " ++ (pipelineRail req pid env).value
             ++ "; reason: Amount: " ++ toString req.amount
             ++ ", Risk: " ++ toString (pipelineAssessment req pid env).risk_score,
           timestamp := db0.now + 1 },
         { payment_id := pid, step := "settlement", status := "failed",
           details := "settlement result: "
             ++ (pipelineSettlement req pid env).status,
           timestamp := db0.now + 2 }] ∧
    (process_payment_pipeline db0 pid req env).now = db0.now + 3 := by
  have hfa1 : faultAt env .riskStage = false := by simp [faultAt, hfn]
  have hfa2 : faultAt env .routingStage = false := by simp [faultAt, hfn]
  have hfa3 : faultAt env .settlementStage = false := by simp [faultAt, hfn]
  have hst : (pipelineSettlement req pid env).status = "failed" := by
    unfold pipelineSettlement
    rw [hfail]
    exact process_settlement_status_failure req _ env.txSuffix
  have hrun : ∃ dbo, runStages db0 pid req env = .ok dbo := by
    unfold runStages
    simp only [hfa1, hfa2, hfa3, Bool.false_eq_true, if_false, hnd, ite_false, hst,
      String.reduceEq]
    exact ⟨_, rfl⟩
  refine ⟨hrun, ?_, ?_, ?_⟩ <;>
  · unfold process_payment_pipeline runStages
    simp [hfa1, hfa2, hfa3, hnd, hst, DB.updatePayment, DB.logTransaction, h0]

theorem sysErrCount_append (l1 l2 : List Transaction) :
    sysErrCount (l1 ++ l2) = sysErrCount l1 + sysErrCount l2 := by
  simp [sysErrCount, List.filter_append]

/-- C1: a pipeline run over an existing payment always leaves it COMPLETED
or FAILED (never PENDING/RISK_CHECK/PROCESSING); if any stage raises, the
single top-level handler sets status FAILED and an error message beginning
`"System error: "` and appends exactly one `"system"`/`"error"` audit
entry; if no stage raises, no such entry is appended.  No exception
propagates out of the run: `process_payment_pipeline` is a total function
into `DB`. -/
theorem pipeline_terminal_and_error_handling (db0 : DB) (pid : String)
    (req : PaymentRequest) (env : PipelineEnv) (p0 : Payment)
    (h0 : db0.payments pid = some p0) :
    (∃ p, (process_payment_pipeline db0 pid req env).payments pid = some p ∧
      (p.status = .COMPLETED ∨ p.status = .FAILED)) ∧
    (∀ m, raisedMsg db0 pid req env = some m →
      ∃ p, (process_payment_pipeline db0 pid req env).payments pid = some p ∧
        p.status = .FAILED ∧
        p.error_message = some ("System error: " ++ m) ∧
        sysErrCount (process_payment_pipeline db0 pid req env).transactions
          = sysErrCount db0.transactions + 1) ∧
    (raisedMsg db0 pid req env = none →
      sysErrCount (process_payment_pipeline db0 pid req env).transactions
        = sysErrCount db0.transactions) := by
  rcases hf : env.fault with _ | ⟨fp, m⟩
  · -- no injected exception: the run completes, declines or fails settlement
    have hf1 : faultAt env .riskStage = false := by simp [faultAt, hf]
    by_cases hd : (pipelineAssessment req pid env).recommendation = "DECLINE"
    · obtain ⟨⟨dbo, hok⟩, hpay, htx, -⟩ := pipeline_declined db0 pid req env p0 h0 hf1 hd
      have hrm : raisedMsg db0 pid req env = none := by
        unfold raisedMsg; rw [hok]
      refine ⟨⟨_, hpay, Or.inr rfl⟩, ?_, ?_⟩
      · intro m hm; rw [hrm] at hm; cases hm
      · intro _; rw [htx, sysErrCount_append]; simp [sysErrCount]
    · cases hsucc : env.settlementSuccess
      · obtain ⟨⟨dbo, hok⟩, hpay, htx, -⟩ :=
          pipeline_settlement_failed db0 pid req env p0 h0 hf hd hsucc
        have hrm : raisedMsg db0 pid req env = none := by
          unfold raisedMsg; rw [hok]
        refine ⟨⟨_, hpay, Or.inr rfl⟩, ?_, ?_⟩
        · intro m hm; rw [hrm] at hm; cases hm
        · intro _; rw [htx, sysErrCount_append]; simp [sysErrCount]
      · obtain ⟨⟨dbo, hok⟩, hpay, htx, -⟩ :=
          pipeline_settled db0 pid req env p0 h0 hf hd hsucc
        have hrm : raisedMsg db0 pid req env = none := by
          unfold raisedMsg; rw [hok]
        refine ⟨⟨_, hpay, Or.inl rfl⟩, ?_, ?_⟩
        · intro m hm; rw [hrm] at hm; cases hm
        · intro _; rw [htx, sysErrCount_append]; simp [sysErrCount]
  · cases fp
    · -- exception during the risk stage
      obtain ⟨hrun, hpay, htx, -⟩ := pipeline_fault_risk db0 pid req env p0 m h0 hf
      have hrm : raisedMsg db0 pid req env = some m := by
        unfold raisedMsg; rw [hrun]
      refine ⟨⟨_, hpay, Or.inr rfl⟩, ?_, ?_⟩
      · intro m' hm'
        rw [hrm] at hm'
        obtain rfl : m = m' := by injection hm'
        exact ⟨_, hpay, rfl, rfl, by rw [htx, sysErrCount_append]; simp [sysErrCount]⟩
      · intro hnone; rw [hrm] at hnone; cases hnone
    · -- exception during routing (unless the payment was declined first)
      have hf1 : faultAt env .riskStage = false := by simp [faultAt, hf]
      by_cases hd : (pipelineAssessment req pid env).recommendation = "DECLINE"
      · obtain ⟨⟨dbo, hok⟩, hpay, htx, -⟩ := pipeline_declined db0 pid req env p0 h0 hf1 hd
        have hrm : raisedMsg db0 pid req env = none := by
          unfold raisedMsg; rw [hok]
        refine ⟨⟨_, hpay, Or.inr rfl⟩, ?_, ?_⟩
        · intro m' hm'; rw [hrm] at hm'; cases hm'
        · intro _; rw [htx, sysErrCount_append]; simp [sysErrCount]
      · obtain ⟨⟨dbe, hrun⟩, hpay, htx, -⟩ :=
          pipeline_fault_routing db0 pid req env p0 m h0 hf hd
        have hrm : raisedMsg db0 pid req env = some m := by
          unfold raisedMsg; rw [hrun]
        refine ⟨⟨_, hpay, Or.inr rfl⟩, ?_, ?_⟩
        · intro m' hm'
          rw [hrm] at hm'
          obtain rfl : m = m' := by injection hm'
          exact ⟨_, hpay, rfl, rfl, by rw [htx, sysErrCount_append]; simp [sysErrCount]⟩
        · intro hnone; rw [hrm] at hnone; cases hnone
    · -- exception during settlement (unless the payment was declined first)
      have hf1 : faultAt env .riskStage = false := by simp [faultAt, hf]
      by_cases hd : (pipelineAssessment req pid env).recommendation = "DECLINE"
      · obtain ⟨⟨dbo, hok⟩, hpay, htx, -⟩ := pipeline_declined db0 pid req env p0 h0 hf1 hd
        have hrm : raisedMsg db0 pid req env = none := by
          unfold raisedMsg; rw [hok]
        refine ⟨⟨_, hpay, Or.inr rfl⟩, ?_, ?_⟩
        · intro m' hm'; rw [hrm] at hm'; cases hm'
        · intro _; rw [htx, sysErrCount_append]; simp [sysErrCount]
      · obtain ⟨⟨dbe, hrun⟩, hpay, htx, -⟩ :=
          pipeline_fault_settlement db0 pid req env p0 m h0 hf hd
        have hrm : raisedMsg db0 pid req env = some m := by
          unfold raisedMsg; rw [hrun]
        refine ⟨⟨_, hpay, Or.inr rfl⟩, ?_, ?_⟩
        · intro m' hm'
          rw [hrm] at hm'
          obtain rfl : m = m' := by injection hm'
          exact ⟨_, hpay, rfl, rfl, by rw [htx, sysErrCount_append]; simp [sysErrCount]⟩
        · intro hnone; rw [hrm] at hnone; cases hnone

/-! ### C5 — completed timestamp vs. terminal status -/

/-- C5 (amended): after a pipeline run starting from a payment without a
completed timestamp, `completed_at` is set iff the final status is
COMPLETED; FAILED payments (decline, settlement failure, system error)
keep `completed_at` unset. -/
theorem completed_at_iff_status_completed (db0 : DB) (pid : String)
    (req : PaymentRequest) (env : PipelineEnv) (p0 : Payment)
    (h0 : db0.payments pid = some p0) (hc : p0.completed_at = none) :
    ∃ p, (process_payment_pipeline db0 pid req env).payments pid = some p ∧
      (p.completed_at.isSome = true ↔ p.status = .COMPLETED) := by
  rcases hf : env.fault with _ | ⟨fp, m⟩
  · have hf1 : faultAt env .riskStage = false := by simp [faultAt, hf]
    by_cases hd : (pipelineAssessment req pid env).recommendation = "DECLINE"
    · obtain ⟨-, hpay, -, -⟩ := pipeline_declined db0 pid req env p0 h0 hf1 hd
      exact ⟨_, hpay, by simp [hc]⟩
    · cases hsucc : env.settlementSuccess
      · obtain ⟨-, hpay, -, -⟩ :=
          pipeline_settlement_failed db0 pid req env p0 h0 hf hd hsucc
        exact ⟨_, hpay, by simp [hc]⟩
      · obtain ⟨-, hpay, -, -⟩ := pipeline_settled db0 pid req env p0 h0 hf hd hsucc
        exact ⟨_, hpay, by simp⟩
  · cases fp
    · obtain ⟨-, hpay, -, -⟩ := pipeline_fault_risk db0 pid req env p0 m h0 hf
      exact ⟨_, hpay, by simp [hc]⟩
    · have hf1 : faultAt env .riskStage = false := by simp [faultAt, hf]
      by_cases hd : (pipelineAssessment req pid env).recommendation = "DECLINE"
      · obtain ⟨-, hpay, -, -⟩ := pipeline_declined db0 pid req env p0 h0 hf1 hd
        exact ⟨_, hpay, by simp [hc]⟩
      · obtain ⟨-, hpay, -, -⟩ := pipeline_fault_routing db0 pid req env p0 m h0 hf hd
        exact ⟨_, hpay, by simp [hc]⟩
    · have hf1 : faultAt env .riskStage = false := by simp [faultAt, hf]
      by_cases hd : (pipelineAssessment req pid env).recommendation = "DECLINE"
      · obtain ⟨-, hpay, -, -⟩ := pipeline_declined db0 pid req env p0 h0 hf1 hd
        exact ⟨_, hpay, by simp [hc]⟩
      · obtain ⟨-, hpay, -, -⟩ := pipeline_fault_settlement db0 pid req env p0 m h0 hf hd
        exact ⟨_, hpay, by simp [hc]⟩

theorem dbHigh_payments : dbHigh.payments "PAY_1" = some p0High := rfl

theorem envDecline_score :
    clampedRiskScore initMerchantProfiles reqHigh envDecline.current_hour
      envDecline.velocityFlag envDecline.ml_anomaly_score = 0.75 := by
  norm_num [clampedRiskScore, rawRiskScore, merchantHistoryScore,
    initMerchantProfiles, reqHigh, envDecline, highAmountThreshold,
    unusualHours, min_def]

theorem envDecline_declines :
    (pipelineAssessment reqHigh "PAY_1" envDecline).recommendation = "DECLINE" := by
  show recommendationOf _ = "DECLINE"
  rw [envDecline_score]
  norm_num [recommendationOf]

/-- Witness for `pipeline_terminal_and_error_handling`: a concrete run
with an injected settlement-stage exception. -/
theorem pipeline_terminal_and_error_handling_witness :
    ∃ p, (process_payment_pipeline dbOne "PAY_1" reqLow envBoom).payments "PAY_1"
        = some p ∧ (p.status = .COMPLETED ∨ p.status = .FAILED) :=
  (pipeline_terminal_and_error_handling dbOne "PAY_1" reqLow envBoom p0Pending rfl).1

/-- C5, counterexample: the concrete declined run ends FAILED with
`completed_at` still unset — against the claim that FAILED payments get a
completed timestamp just as COMPLETED ones do. -/
theorem completed_at_counterexample :
    ((process_payment_pipeline dbHigh "PAY_1" reqHigh envDecline).payments "PAY_1").map
      (fun p => (p.status, p.completed_at)) = some (.FAILED, none) := by
  obtain ⟨-, hpay, -, -⟩ := pipeline_declined dbHigh "PAY_1" reqHigh envDecline p0High
    dbHigh_payments rfl envDecline_declines
  rw [hpay]
  rfl

/-- Witness for `completed_at_iff_status_completed` at a concrete run. -/
theorem completed_at_iff_status_completed_witness :
    ∃ p, (process_payment_pipeline dbOne "PAY_1" reqLow envBoom).payments "PAY_1"
        = some p ∧ (p.completed_at.isSome = true ↔ p.status = .COMPLETED) :=
  completed_at_iff_status_completed dbOne "PAY_1" reqLow envBoom p0Pending rfl rfl

/-! ### C6 — forced high risk: declined before any rail is selected -/

/-- C6, counterexample: the spec's forced scenario (amount 50000, local
currency, computed score 0.75 > 0.7) does not persist rail VISA_DIRECT —
the pipeline declines the payment at the risk stage and leaves
`settlement_rail` unset. -/
theorem high_risk_rail_counterexample :
    ((process_payment_pipeline dbHigh "PAY_1" reqHigh envDecline).payments "PAY_1").map
      (fun p => (p.settlement_rail, p.status, p.error_message))
      = some (none, .FAILED, some "Transaction declined due to high risk score") := by
  obtain ⟨-, hpay, -, -⟩ := pipeline_declined dbHigh "PAY_1" reqHigh envDecline p0High
    dbHigh_payments rfl envDecline_declines
  rw [hpay]
  rfl

/-- C6 (amended): when the computed (pre-rounding, capped) risk score
exceeds 0.7, the run is declined at the risk stage: it ends FAILED with
the decline message and never selects or persists a settlement rail —
while the router itself, given any score above 0.7, would return
VISA_DIRECT regardless of currency and amount. -/
theorem high_risk_declined_before_routing (db0 : DB) (pid : String)
    (req : PaymentRequest) (env : PipelineEnv) (p0 : Payment)
    (h0 : db0.payments pid = some p0)
    (hrail0 : p0.settlement_rail = none)
    (hf1 : faultAt env .riskStage = false)
    (hs : 0.7 < clampedRiskScore initMerchantProfiles req env.current_hour
      env.velocityFlag env.ml_anomaly_score) :
    (∃ p, (process_payment_pipeline db0 pid req env).payments pid = some p ∧
      p.status = .FAILED ∧
      p.error_message = some "Transaction declined due to high risk score" ∧
      p.settlement_rail = none) ∧
    (∀ s : ℚ, 0.7 < s → select_settlement_rail req s = .VISA_DIRECT) := by
  have hd : (pipelineAssessment req pid env).recommendation = "DECLINE" := by
    show recommendationOf _ = "DECLINE"
    exact recommendationOf_eq_decline.2 hs.le
  obtain ⟨-, hpay, -, -⟩ := pipeline_declined db0 pid req env p0 h0 hf1 hd
  refine ⟨⟨_, hpay, rfl, rfl, hrail0⟩, ?_⟩
  intro s hs'
  unfold select_settlement_rail
  rw [if_pos hs']

/-- Witness for `high_risk_declined_before_routing` at the concrete forced
scenario. -/
theorem high_risk_declined_before_routing_witness :
    (∃ p, (process_payment_pipeline dbHigh "PAY_1" reqHigh envDecline).payments "PAY_1"
        = some p ∧
      p.status = .FAILED ∧
      p.error_message = some "Transaction declined due to high risk score" ∧
      p.settlement_rail = none) ∧
    select_settlement_rail reqHigh (71/100) = .VISA_DIRECT :=
  ⟨(high_risk_declined_before_routing dbHigh "PAY_1" reqHigh envDecline p0High
      dbHigh_payments rfl rfl (by rw [envDecline_score]; norm_num)).1,
   (high_risk_declined_before_routing dbHigh "PAY_1" reqHigh envDecline p0High
      dbHigh_payments rfl rfl (by rw [envDecline_score]; norm_num)).2
      (71/100) (by norm_num)⟩

/-! ### `create_payment` success characterisation -/

theorem create_payment_ok (db0 : DB) (gw : APIGatewayState) (req : PaymentRequest)
    (pid : String) (lr : Bool) (db1 : DB) (gw1 : APIGatewayState)
    (resp : PaymentResponse)
    (h : create_payment db0 gw req pid lr = .ok (db1, gw1, resp)) :
    db1.payments pid = some (pendingPayment req pid db0.now) ∧
    db1.transactions = db0.transactions ++
      [{ payment_id := pid, step := "api_gateway", status := "success",
         details := "Payment request validated and accepted", timestamp := db0.now }] ∧
    db1.now = db0.now + 1 := by
  cases hauth : authenticate_request req.merchant_id true db0.registeredMerchants lr with
  | false => simp [create_payment, hauth] at h
  | true =>
    cases hrl : (check_rate_limit gw req.merchant_id db0.now).1 with
    | false => simp [create_payment, hauth, hrl] at h
    | true =>
      simp only [create_payment, hauth, hrl, not_true, Bool.true_eq_false,
        if_false, ite_false, Except.ok.injEq, Prod.mk.injEq] at h
      obtain ⟨h1, h2, h3⟩ := h
      subst h1
      refine ⟨?_, ?_, ?_⟩ <;> simp [DB.logTransaction]

theorem entryNames_of_append {l0 L : List Transaction}
    (hL : ∀ t ∈ L, t.step ∈ pipelineStepNames ∧ t.status ∈ stageStatusNames) :
    ∀ t ∈ l0 ++ L, t ∈ l0 ∨ (t.step ∈ pipelineStepNames ∧ t.status ∈ stageStatusNames) :=
  fun t ht => (List.mem_append.1 ht).imp id (hL t)

/-- C8 (amended): every ledger entry appended by the payment endpoint or a
pipeline run has its stage in {api_gateway, risk_engine, orchestrator,
settlement, system} and its status in {success, completed, declined,
failed, error, routing}. -/
theorem ledger_entry_names :
    (∀ (db0 : DB) (gw : APIGatewayState) (req : PaymentRequest) (pid : String)
        (lr : Bool) (db1 : DB) (gw1 : APIGatewayState) (resp : PaymentResponse),
      create_payment db0 gw req pid lr = .ok (db1, gw1, resp) →
      ∀ t ∈ db1.transactions, t ∈ db0.transactions ∨
        (t.step ∈ pipelineStepNames ∧ t.status ∈ stageStatusNames)) ∧
    (∀ (db0 : DB) (pid : String) (req : PaymentRequest) (env : PipelineEnv)
        (p0 : Payment),
      db0.payments pid = some p0 →
      ∀ t ∈ (process_payment_pipeline db0 pid req env).transactions,
        t ∈ db0.transactions ∨
        (t.step ∈ pipelineStepNames ∧ t.status ∈ stageStatusNames)) := by
  constructor
  · intro db0 gw req pid lr db1 gw1 resp h
    obtain ⟨-, htx, -⟩ := create_payment_ok db0 gw req pid lr db1 gw1 resp h
    rw [htx]
    refine entryNames_of_append ?_
    intro t ht
    simp only [List.mem_singleton] at ht
    subst ht
    exact ⟨by simp [pipelineStepNames], by simp [stageStatusNames]⟩
  · intro db0 pid req env p0 h0
    rcases hf : env.fault with _ | ⟨fp, m⟩
    · have hf1 : faultAt env .riskStage = false := by simp [faultAt, hf]
      by_cases hd : (pipelineAssessment req pid env).recommendation = "DECLINE"
      · obtain ⟨-, -, htx, -⟩ := pipeline_declined db0 pid req env p0 h0 hf1 hd
        rw [htx]
        refine entryNames_of_append ?_
        intro t ht
        simp only [List.mem_cons, List.not_mem_nil, or_false] at ht
        rcases ht with rfl | rfl <;>
          exact ⟨by simp [pipelineStepNames], by simp [stageStatusNames]⟩
      · cases hsucc : env.settlementSuccess
        · obtain ⟨-, -, htx, -⟩ :=
            pipeline_settlement_failed db0 pid req env p0 h0 hf hd hsucc
          rw [htx]
          refine entryNames_of_append ?_
          intro t ht
          simp only [List.mem_cons, List.not_mem_nil, or_false] at ht
          rcases ht with rfl | rfl | rfl <;>
            exact ⟨by simp [pipelineStepNames], by simp [stageStatusNames]⟩
        · obtain ⟨-, -, htx, -⟩ := pipeline_settled db0 pid req env p0 h0 hf hd hsucc
          rw [htx]
          refine entryNames_of_append ?_
          intro t ht
          simp only [List.mem_cons, List.not_mem_nil, or_false] at ht
          rcases ht with rfl | rfl | rfl <;>
            exact ⟨by simp [pipelineStepNames], by simp [stageStatusNames]⟩
    · cases fp
      · obtain ⟨-, -, htx, -⟩ := pipeline_fault_risk db0 pid req env p0 m h0 hf
        rw [htx]
        refine entryNames_of_append ?_
        intro t ht
        simp only [List.mem_singleton] at ht
        subst ht
        exact ⟨by simp [pipelineStepNames], by simp [stageStatusNames]⟩
      · have hf1 : faultAt env .riskStage = false := by simp [faultAt, hf]
        by_cases hd : (pipelineAssessment req pid env).recommendation = "DECLINE"
        · obtain ⟨-, -, htx, -⟩ := pipeline_declined db0 pid req env p0 h0 hf1 hd
          rw [htx]
          refine entryNames_of_append ?_
          intro t ht
          simp only [List.mem_cons, List.not_mem_nil, or_false] at ht
          rcases ht with rfl | rfl <;>
            exact ⟨by simp [pipelineStepNames], by simp [stageStatusNames]⟩
        · obtain ⟨-, -, htx, -⟩ := pipeline_fault_routing db0 pid req env p0 m h0 hf hd
          rw [htx]
          refine entryNames_of_append ?_
          intro t ht
          simp only [List.mem_cons, List.not_mem_nil, or_false] at ht
          rcases ht with rfl | rfl <;>
            exact ⟨by simp [pipelineStepNames], by simp [stageStatusNames]⟩
      · have hf1 : faultAt env .riskStage = false := by simp [faultAt, hf]
        by_cases hd : (pipelineAssessment req pid env).recommendation = "DECLINE"
        · obtain ⟨-, -, htx, -⟩ := pipeline_declined db0 pid req env p0 h0 hf1 hd
          rw [htx]
          refine entryNames_of_append ?_
          intro t ht
          simp only [List.mem_cons, List.not_mem_nil, or_false] at ht
          rcases ht with rfl | rfl <;>
            exact ⟨by simp [pipelineStepNames], by simp [stageStatusNames]⟩
        · obtain ⟨-, -, htx, -⟩ :=
            pipeline_fault_settlement db0 pid req env p0 m h0 hf hd
          rw [htx]
          refine entryNames_of_append ?_
          intro t ht
          simp only [List.mem_cons, List.not_mem_nil, or_false] at ht
          rcases ht with rfl | rfl | rfl <;>
            exact ⟨by simp [pipelineStepNames], by simp [stageStatusNames]⟩

theorem create_payment_concrete :
    create_payment emptyDB gwInit reqLow "PAY_1" false
      = .ok (dbAfterCreate, gwAfterCreate, respAfterCreate) := rfl

/-- C8, counterexample: the ingress stage is logged as `"api_gateway"`,
which is not in the spec's claimed stage-name set (which lists
`"gateway"`). -/
theorem gateway_step_name_counterexample :
    (create_payment emptyDB gwInit reqLow "PAY_1" false).toOption.map
      (fun x => x.1.transactions.map Transaction.step) = some ["api_gateway"] ∧
    "api_gateway" ∉ specStageNames := by
  constructor
  · rfl
  · simp [specStageNames]

/-- Witness for `ledger_entry_names` at a concrete creation. -/
theorem ledger_entry_names_witness :
    { payment_id := "PAY_1", step := "api_gateway", status := "success",
      details := "Payment request validated and accepted", timestamp := 0 }
      ∈ emptyDB.transactions ∨
    (("api_gateway" : String) ∈ pipelineStepNames ∧
      ("success" : String) ∈ stageStatusNames) :=
  ledger_entry_names.1 emptyDB gwInit reqLow "PAY_1" false dbAfterCreate
    gwAfterCreate respAfterCreate rfl
    { payment_id := "PAY_1", step := "api_gateway", status := "success",
      details := "Payment request validated and accepted", timestamp := 0 }
    (by simp [dbAfterCreate, apigwEntry])

/-! ### C10 — unregistered prefix merchants pass the gateway -/

/-- C10: any merchant id beginning `"MERCH_"` authenticates — the database
lookup is a best-effort pre-check whose miss or failure falls through to
the prefix rule — and a request bearing such an id is accepted by the
payment endpoint (here under a fresh rate-limit state). -/
theorem unregistered_prefix_merchants_accepted (mid : String) (dbProvided : Bool)
    (registered : List String) (lookupRaises : Bool)
    (h : strStartsWith mid "MERCH_" = true) :
    authenticate_request mid dbProvided registered lookupRaises = true ∧
    (∀ (db : DB) (gw : APIGatewayState) (req : PaymentRequest) (newId : String),
      req.merchant_id = mid → gw.rate_limits = [] →
      (create_payment db gw req newId lookupRaises).toOption.isSome = true) := by
  refine ⟨authenticate_request_of_startsWith mid dbProvided registered lookupRaises h, ?_⟩
  intro db gw req newId hm hgw
  unfold create_payment
  rw [hm, authenticate_request_of_startsWith mid true db.registeredMerchants lookupRaises h]
  simp [check_rate_limit, getRateList, setRateList, hgw, Except.toOption]

/-- Witness for `unregistered_prefix_merchants_accepted`: the unregistered
id `"MERCH_GHOST"` (empty merchant table) is authenticated and its payment
accepted. -/
theorem unregistered_prefix_merchants_accepted_witness :
    authenticate_request "MERCH_GHOST" true [] false = true ∧
    (create_payment emptyDB gwInit reqGhost "PAY_1" false).toOption.isSome = true :=
  ⟨(unregistered_prefix_merchants_accepted "MERCH_GHOST" true [] false (by decide)).1,
   (unregistered_prefix_merchants_accepted "MERCH_GHOST" true [] false (by decide)).2
     emptyDB gwInit reqGhost "PAY_1" rfl rfl⟩

/-! ### C7 — audit-trail ordering and the successful stage sequence -/

/-- C7: the status reader returns ledger entries in non-decreasing
timestamp order for every payment id; and for a freshly created payment
whose run ends COMPLETED, the stage sequence is exactly
api_gateway, risk_engine, orchestrator, settlement. -/
theorem pipeline_audit_trail :
    (∀ (db : DB) (pid : String) (p : Payment) (l : List Transaction),
      get_payment_status db pid = some (p, l) → List.Sorted tsLe l) ∧
    (∀ (db0 : DB) (gw : APIGatewayState) (req : PaymentRequest) (pid : String)
        (lr : Bool) (env : PipelineEnv) (db1 : DB) (gw1 : APIGatewayState)
        (resp : PaymentResponse) (p : Payment) (l : List Transaction),
      db0.transactions.filter (fun t => t.payment_id == pid) = [] →
      create_payment db0 gw req pid lr = .ok (db1, gw1, resp) →
      get_payment_status (process_payment_pipeline db1 pid req env) pid
        = some (p, l) →
      p.status = .COMPLETED →
      l.map Transaction.step
        = ["api_gateway", "risk_engine", "orchestrator", "settlement"]) := by
  constructor
  · intro db pid p l hget
    unfold get_payment_status at hget
    cases hdp : db.payments pid with
    | none => rw [hdp] at hget; cases hget
    | some q =>
      rw [hdp] at hget
      simp only [Option.map_some', Option.some.injEq, Prod.mk.injEq] at hget
      obtain ⟨-, hl⟩ := hget
      rw [← hl]
      exact List.sorted_insertionSort tsLe _
  · intro db0 gw req pid lr env db1 gw1 resp p l hfresh hcr hget hstat
    obtain ⟨hp1, htx1, hnow1⟩ := create_payment_ok db0 gw req pid lr db1 gw1 resp hcr
    rcases hf : env.fault with _ | ⟨fp, m⟩
    · have hf1 : faultAt env .riskStage = false := by simp [faultAt, hf]
      by_cases hd : (pipelineAssessment req pid env).recommendation = "DECLINE"
      · obtain ⟨-, hpay, -, -⟩ :=
          pipeline_declined db1 pid req env _ hp1 hf1 hd
        unfold get_payment_status at hget
        rw [hpay] at hget
        simp only [Option.map_some', Option.some.injEq, Prod.mk.injEq] at hget
        obtain ⟨hp, -⟩ := hget
        rw [← hp] at hstat
        cases hstat
      · cases hsucc : env.settlementSuccess
        · obtain ⟨-, hpay, -, -⟩ :=
            pipeline_settlement_failed db1 pid req env _ hp1 hf hd hsucc
          unfold get_payment_status at hget
          rw [hpay] at hget
          simp only [Option.map_some', Option.some.injEq, Prod.mk.injEq] at hget
          obtain ⟨hp, -⟩ := hget
          rw [← hp] at hstat
          cases hstat
        · obtain ⟨-, hpay, htx, -⟩ :=
            pipeline_settled db1 pid req env _ hp1 hf hd hsucc
          unfold get_payment_status at hget
          rw [hpay] at hget
          simp only [Option.map_some', Option.some.injEq, Prod.mk.injEq] at hget
          obtain ⟨-, hl⟩ := hget
          subst hl
          rw [htx, htx1, List.filter_append, List.filter_append, hfresh]
          have hsorted : List.Sorted tsLe
              (List.filter (fun t => t.payment_id == pid)
                [{ payment_id := pid, step := "api_gateway", status := "success",
                   details := "Payment request validated and accepted",
                   timestamp := db0.now }] ++
               List.filter (fun t => t.payment_id == pid)
                [{ payment_id := pid, step := "risk_engine", status := "completed",
                   details := "risk_score: "
                     ++ toString (pipelineAssessment req pid env).risk_score
                     ++ "; recommendation: "
                     ++ (pipelineAssessment req pid env).recommendation,
                   timestamp := db1.now },
                 { payment_id := pid, step := "orchestrator", status := "routing",
                   details := "selected_rail: " ++ (pipelineRail req pid env).value
                     ++ "; reason: Amount: " ++ toString req.amount
                     ++ ", Risk: " ++ toString (pipelineAssessment req pid env).risk_score,
                   timestamp := db1.now + 1 },
                 { payment_id := pid, step := "settlement", status := "completed",
                   details := "settlement result: "
                     ++ (pipelineSettlement req pid env).status,
                   timestamp := db1.now + 2 }]) := by
            simp only [List.filter, beq_self_eq_true, List.cons_append,
              List.nil_append]
            simp only [List.sorted_cons, List.mem_cons, List.not_mem_nil,
              or_false, List.mem_singleton, List.sorted_nil, and_true, tsLe]
            refine ⟨?_, ?_, ?_, fun b h => h.elim⟩ <;>
              first
                | (rintro b (rfl | rfl | rfl) <;> simp <;> omega)
                | (rintro b (rfl | rfl) <;> simp <;> omega)
                | (rintro b rfl <;> simp <;> omega)
          rw [List.nil_append, List.Sorted.insertionSort_eq hsorted]
          simp [List.filter, beq_self_eq_true]
    · cases fp
      · obtain ⟨-, hpay, -, -⟩ := pipeline_fault_risk db1 pid req env _ m hp1 hf
        unfold get_payment_status at hget
        rw [hpay] at hget
        simp only [Option.map_some', Option.some.injEq, Prod.mk.injEq] at hget
        obtain ⟨hp, -⟩ := hget
        rw [← hp] at hstat
        cases hstat
      · have hf1 : faultAt env .riskStage = false := by simp [faultAt, hf]
        by_cases hd : (pipelineAssessment req pid env).recommendation = "DECLINE"
        · obtain ⟨-, hpay, -, -⟩ := pipeline_declined db1 pid req env _ hp1 hf1 hd
          unfold get_payment_status at hget
          rw [hpay] at hget
          simp only [Option.map_some', Option.some.injEq, Prod.mk.injEq] at hget
          obtain ⟨hp, -⟩ := hget
          rw [← hp] at hstat
          cases hstat
        · obtain ⟨-, hpay, -, -⟩ :=
            pipeline_fault_routing db1 pid req env _ m hp1 hf hd
          unfold get_payment_status at hget
          rw [hpay] at hget
          simp only [Option.map_some', Option.some.injEq, Prod.mk.injEq] at hget
          obtain ⟨hp, -⟩ := hget
          rw [← hp] at hstat
          cases hstat
      · have hf1 : faultAt env .riskStage = false := by simp [faultAt, hf]
        by_cases hd : (pipelineAssessment req pid env).recommendation = "DECLINE"
        · obtain ⟨-, hpay, -, -⟩ := pipeline_declined db1 pid req env _ hp1 hf1 hd
          unfold get_payment_status at hget
          rw [hpay] at hget
          simp only [Option.map_some', Option.some.injEq, Prod.mk.injEq] at hget
          obtain ⟨hp, -⟩ := hget
          rw [← hp] at hstat
          cases hstat
        · obtain ⟨-, hpay, -, -⟩ :=
            pipeline_fault_settlement db1 pid req env _ m hp1 hf hd
          unfold get_payment_status at hget
          rw [hpay] at hget
          simp only [Option.map_some', Option.some.injEq, Prod.mk.injEq] at hget
          obtain ⟨hp, -⟩ := hget
          rw [← hp] at hstat
          cases hstat

theorem envOk_score :
    clampedRiskScore initMerchantProfiles reqLow envOk.current_hour
      envOk.velocityFlag envOk.ml_anomaly_score = 0.1 := by
  norm_num [clampedRiskScore, rawRiskScore, merchantHistoryScore,
    initMerchantProfiles, reqLow, envOk, highAmountThreshold, unusualHours,
    min_def]

theorem envOk_not_decline :
    (pipelineAssessment reqLow "PAY_1" envOk).recommendation ≠ "DECLINE" := by
  show recommendationOf _ ≠ "DECLINE"
  rw [envOk_score]
  norm_num [recommendationOf]
  decide

/-- Witness for `pipeline_audit_trail`: the concrete created-then-completed
run has the claimed stage sequence, and a concrete read is sorted. -/
theorem pipeline_audit_trail_witness :
    List.Sorted tsLe [] ∧
    ∃ p l, get_payment_status
        (process_payment_pipeline dbAfterCreate "PAY_1" reqLow envOk) "PAY_1"
        = some (p, l) ∧
      p.status = .COMPLETED ∧
      l.map Transaction.step
        = ["api_gateway", "risk_engine", "orchestrator", "settlement"] := by
  have hsorted0 : get_payment_status dbOne "PAY_1" = some (p0Pending, []) := rfl
  refine ⟨pipeline_audit_trail.1 dbOne "PAY_1" p0Pending [] hsorted0, ?_⟩
  have h0 : dbAfterCreate.payments "PAY_1" = some (pendingPayment reqLow "PAY_1" 0) := rfl
  obtain ⟨-, hpay, -, -⟩ := pipeline_settled dbAfterCreate "PAY_1" reqLow envOk _
    h0 rfl envOk_not_decline rfl
  have hget : get_payment_status
      (process_payment_pipeline dbAfterCreate "PAY_1" reqLow envOk) "PAY_1"
      = some ({ pendingPayment reqLow "PAY_1" 0 with
                status := .COMPLETED
                risk_score := some (pipelineAssessment reqLow "PAY_1" envOk).risk_score
                settlement_rail := some (pipelineRail reqLow "PAY_1" envOk)
                settlement_response := some (pipelineSettlement reqLow "PAY_1" envOk)
                completed_at := some (dbAfterCreate.now + 2) },
              List.insertionSort tsLe
                ((process_payment_pipeline dbAfterCreate "PAY_1" reqLow envOk).transactions.filter
                  (fun t => t.payment_id == "PAY_1"))) := by
    unfold get_payment_status
    rw [hpay]
    rfl
  exact ⟨_, _, hget, rfl,
    pipeline_audit_trail.2 emptyDB gwInit reqLow "PAY_1" false envOk dbAfterCreate
      gwAfterCreate respAfterCreate _ _ rfl create_payment_concrete hget rfl⟩
